import Mathlib

/-!
Shallow embedding of the reminder scheduling and delivery subsystem of the
PlandD repository, centred on `src/services/reminder/scheduler.py` and
`src/pland/services/reminder/notifier.py`. Wall-clock times of day are
minutes since midnight (`Nat`, so 23:30 is 1410); absolute instants and
durations are minutes (`Int` for instants, `Nat` for configured interval
minutes).
-/

namespace PlandD

/-- Splits a character list at every colon, the usual string split. -/
def splitOnColon (cs : List Char) : List (List Char) :=
  match cs with
  | [] => [[]]
  | c :: rest =>
    let r := splitOnColon rest
    if c = ':' then [] :: r
    else
      match r with
      | g :: gs => (c :: g) :: gs
      | [] => [[c]]

/-- Reads a field of one or two decimal digits whose value is below
`bound`, as the `%H` and `%M` directives of `strptime` do. -/
def parseClockField (cs : List Char) (bound : Nat) : Option Nat :=
  if 1 ≤ cs.length ∧ cs.length ≤ 2 ∧ cs.all Char.isDigit then
    let v := cs.foldl (fun n c => 10 * n + (c.toNat - 48)) 0
    if v < bound then some v else none
  else none

/-- Model of `datetime.strptime(s, "%H:%M").time()` as used in
`ReminderScheduler._is_quiet_hours` (scheduler.py:140-142): one or two digit
hour below 24, a colon, one or two digit minute below 60; the resulting
time-of-day value is returned as minutes since midnight (Python compares
`time` objects lexicographically on (hour, minute), which coincides with
comparison of minute counts). A string that does not match raises
`ValueError` in Python, modelled as `none`. -/
def parseHHMM (s : String) : Option Nat :=
  match splitOnColon s.data with
  | [h, m] =>
    match parseClockField h 24, parseClockField m 60 with
    | some hv, some mv => some (hv * 60 + mv)
    | _, _ => none
  | _ => none

/-- Body of the quiet-hours comparison in
`ReminderScheduler._is_quiet_hours` (scheduler.py:144-147), on already
parsed times of day. -/
def quietWindow (current qstart qend : Nat) : Bool :=
  if qstart ≤ qend then decide (qstart ≤ current ∧ current ≤ qend)
  else decide (current ≥ qstart ∨ current ≤ qend)

/-- Model of `ReminderScheduler._is_quiet_hours(current_time, settings)`
(scheduler.py:137-151): parse the three `HH:MM` strings and compare; a
`ValueError` from any parse is caught, logged, and the function returns
`False` (scheduler.py:149-151). -/
def is_quiet_hours (current_time qstart qend : String) : Bool :=
  match parseHHMM current_time, parseHHMM qstart, parseHHMM qend with
  | some c, some s, some e => quietWindow c s e
  | _, _, _ => false

/-- Refinement comparison point, following the words of the specification
rather than the source: the Time Window Resolver is required to propagate a
malformed `HH:MM` string to the caller as an error instead of answering
with a boolean. -/
def is_quiet_hours_spec (current_time qstart qend : String) :
    Except Unit Bool :=
  match parseHHMM current_time, parseHHMM qstart, parseHHMM qend with
  | some c, some s, some e => Except.ok (quietWindow c s e)
  | _, _, _ => Except.error ()


/-- Triggers used by the scheduler: `"date"` one-shot triggers
(scheduler.py:216) and `IntervalTrigger(minutes=...)` periodic triggers
(scheduler.py:81, 268). -/
inductive Trigger where
  | date (runDate : Int)
  | interval (minutes : Nat)
deriving DecidableEq, Repr

/-- An APScheduler job as installed by this code base: a string id, a
trigger, and the next scheduled fire instant. -/
structure Job where
  id : String
  trigger : Trigger
  nextFireAt : Int
deriving DecidableEq, Repr

/-- Model of APScheduler `remove_job` and of the removal half of
`replace_existing=True`: drop every job carrying the given id. -/
def cancel (reg : List Job) (key : String) : List Job :=
  reg.filter (fun j => j.id != key)

/-- Model of `scheduler.add_job(..., id=key, replace_existing=True)` as
called at scheduler.py:84-90 and scheduler.py:213-221: any existing job
with the same id is cancelled, then the new job is installed. -/
def add_job (reg : List Job) (j : Job) : List Job :=
  cancel reg j.id ++ [j]

/-- The live jobs registered under a given key. -/
def liveJobs (reg : List Job) (key : String) : List Job :=
  reg.filter (fun j => j.id == key)

/-- Per-user reminder settings row (pland/database/models.py:54-68), the
object handed to the scheduler by `db.get_reminder_settings`. -/
structure ReminderSettings where
  user_id : Nat
  default_reminder_time : Nat
  morning_reminder_time : String
  evening_reminder_time : String
  priority_high_interval : Nat
  priority_medium_interval : Nat
  priority_low_interval : Nat
  quiet_hours_start : String
  quiet_hours_end : String
  reminder_types : String
deriving DecidableEq, Repr

/-- A task row as read through `db.get_task` and `db.get_upcoming_tasks`,
restricted to the fields the scheduler reads; instants are absolute
minutes. -/
structure Task where
  id : Nat
  user_id : Nat
  title : String
  due_date : Int
  completed : Bool
  energy_level : Option Nat
  optimal_time : Option String
  priority : String
deriving DecidableEq, Repr

/-- Outcome of one `bot.send_message` call at the messaging gateway:
accepted, a raised `TelegramAPIError`, or any other raised exception. -/
inductive GatewayOutcome where
  | success
  | telegramAPIError
  | otherError
deriving DecidableEq, Repr

/-- True exactly when the gateway accepted the send. -/
def gatewayOk : GatewayOutcome → Bool
  | GatewayOutcome.success => true
  | _ => false

/-- Model of the APScheduler trigger engine completing one due fire of job
`j` at its scheduled instant `now`: a one-shot date job has no further fire
time and leaves the job store, while an interval job stays with its next
fire one interval later. The callback bodies in scheduler.py never touch
the registry, so the registry change at a fire is exactly this. -/
def engineAfterFire (reg : List Job) (j : Job) (now : Int) : List Job :=
  match j.trigger with
  | Trigger.date _ => cancel reg j.id
  | Trigger.interval m => add_job reg { j with nextFireAt := now + m }

/-- Model of `ReminderScheduler._send_task_reminder(task_id, user_id)`
(scheduler.py:224-255), returning whether a notification reached the
gateway: missing settings return early, quiet hours return early
(scheduler.py:236-237), a missing or completed task sends nothing
(scheduler.py:239-240), and a raised gateway error is caught by the
surrounding handler (scheduler.py:254-255). -/
def send_task_reminder (settings : Option ReminderSettings)
    (task : Option Task) (nowClock : String) (gw : GatewayOutcome) : Bool :=
  match settings with
  | none => false
  | some s =>
    if is_quiet_hours nowClock s.quiet_hours_start s.quiet_hours_end then
      false
    else
      match task with
      | some t => if t.completed then false else gatewayOk gw
      | none => false

/-- One fire of a task reminder job: the engine exhausts or advances the
trigger and the callback decides delivery; the result pairs the registry
after the fire with whether a notification was delivered. -/
def fireTaskJob (reg : List Job) (j : Job) (now : Int)
    (settings : Option ReminderSettings) (task : Option Task)
    (nowClock : String) (gw : GatewayOutcome) : List Job × Bool :=
  (engineAfterFire reg j now, send_task_reminder settings task nowClock gw)

/-- Sending loop of `_check_upcoming_tasks` (scheduler.py:313-345) over the
already filtered task list: a task due within 24 hours gets one send
attempt consuming the next gateway outcome, and a raised gateway error
aborts the loop, caught only by the outer handler (scheduler.py:347-348).
Returns the number of delivered notifications. -/
def sendDueReminders (now : Int) (tasks : List Task)
    (gw : List GatewayOutcome) : Nat :=
  match tasks with
  | [] => 0
  | t :: rest =>
    if t.due_date - now ≤ 1440 then
      match gw with
      | GatewayOutcome.success :: gwRest =>
        1 + sendDueReminders now rest gwRest
      | _ => 0
    else sendDueReminders now rest gw

/-- Model of `ReminderScheduler._check_upcoming_tasks(user_id, priority)`
(scheduler.py:299-348): missing settings return early, quiet hours return
early (scheduler.py:306-307), then the upcoming tasks of the user are
filtered to the uncompleted ones of the given priority and reminded. -/
def check_upcoming_tasks (settings : Option ReminderSettings)
    (nowClock : String) (now : Int) (priority : String)
    (tasks : List Task) (gw : List GatewayOutcome) : Nat :=
  match settings with
  | none => 0
  | some s =>
    if is_quiet_hours nowClock s.quiet_hours_start s.quiet_hours_end then 0
    else
      sendDueReminders now
        (tasks.filter (fun t => t.priority == priority && !t.completed)) gw

/-- One fire of a periodic check job as registered at scheduler.py:266-272
under the key check_tasks_ user _ priority with an interval trigger. -/
def fireCheckJob (reg : List Job) (j : Job) (now : Int)
    (settings : Option ReminderSettings) (nowClock : String)
    (priority : String) (tasks : List Task) (gw : List GatewayOutcome) :
    List Job × Nat :=
  (engineAfterFire reg j now,
   check_upcoming_tasks settings nowClock now priority tasks gw)

/-- A plan step as read through the plan relation (database/models.py). -/
structure PlanStep where
  id : Nat
  title : String
  status : String
  duration : Nat
deriving DecidableEq, Repr

/-- A plan row with its steps, restricted to the fields the scheduler
reads. -/
structure Plan where
  id : Nat
  user_id : Nat
  title : String
  steps : List PlanStep
deriving DecidableEq, Repr

/-- Reminder loop of `_check_plan_status` (scheduler.py:107-111): every
step whose status is not completed gets one reminder through
`_send_reminder`, which catches its own gateway errors
(scheduler.py:134-135), so one failure does not abort the loop. Returns
the number of delivered step reminders. -/
def sendStepReminders (steps : List PlanStep)
    (gw : List GatewayOutcome) : Nat :=
  match steps with
  | [] => 0
  | st :: rest =>
    if st.status != "completed" then
      match gw with
      | GatewayOutcome.success :: gwRest =>
        1 + sendStepReminders rest gwRest
      | _ :: gwRest => sendStepReminders rest gwRest
      | [] => sendStepReminders rest []
    else sendStepReminders rest gw

/-- Model of `ReminderScheduler._check_plan_status(plan_id)`
(scheduler.py:94-116): a fresh read of the plan; a missing plan only logs
a warning and returns, and no branch touches the job registry. -/
def check_plan_status (plan : Option Plan) (gw : List GatewayOutcome) : Nat :=
  match plan with
  | none => 0
  | some p => sendStepReminders p.steps gw

/-- One fire of a plan status job as registered at scheduler.py:84-90
under the key plan_ id with an interval trigger. -/
def firePlanJob (reg : List Job) (j : Job) (now : Int) (plan : Option Plan)
    (gw : List GatewayOutcome) : List Job × Nat :=
  (engineAfterFire reg j now, check_plan_status plan gw)

/-- Lead minutes before the due date (scheduler.py:205-211):
`settings.default_reminder_time`, scaled by 1.5 and truncated by `int()`
for tasks whose energy level is at least 8; the Python truthiness guard
`task.energy_level and task.energy_level >= 8` is equivalent to the bound
alone on naturals, and `int(1.5 * n)` for a nonnegative integer `n` is
floor division `3 * n / 2`. -/
def advance_minutes (s : ReminderSettings) (t : Task) : Nat :=
  match t.energy_level with
  | some e =>
    if 8 ≤ e then 3 * s.default_reminder_time / 2
    else s.default_reminder_time
  | none => s.default_reminder_time

/-- Model of `ReminderScheduler.add_task_reminder(task_id, user_id,
due_date)` (scheduler.py:189-222): missing settings or task do nothing;
otherwise the reminder instant is the due date minus the advance minutes,
and a one-shot job under the key task_ id is installed only when that
instant is strictly in the future (scheduler.py:213-221). -/
def add_task_reminder (reg : List Job) (settings : Option ReminderSettings)
    (task : Option Task) (task_id : Nat) (due_date now : Int) : List Job :=
  match settings with
  | none => reg
  | some s =>
    match task with
    | none => reg
    | some t =>
      let reminder_time : Int := due_date - (advance_minutes s t : Nat)
      if now < reminder_time then
        add_job reg
          { id := "task_" ++ toString task_id,
            trigger := Trigger.date reminder_time,
            nextFireAt := reminder_time }
      else reg

/-- ASCII lowering of a character list, the effect of the Python `lower()`
call on the priority strings involved here. -/
def lowerAscii (cs : List Char) : List Char :=
  cs.map (fun c =>
    if 'A' ≤ c ∧ c ≤ 'Z' then Char.ofNat (c.toNat + 32) else c)

/-- The reflective settings lookup at scheduler.py:317-321: the attribute
named priority_ lowered _interval is read from the settings row when the
lowered priority string is high, medium or low; any other priority string
misses and the supplied fallback value (the code passes
`self.check_intervals[priority]`) is used instead. -/
def getattr_priority_interval (s : ReminderSettings) (priority : String)
    (fallback : Nat) : Nat :=
  if lowerAscii priority.data = "high".data then s.priority_high_interval
  else if lowerAscii priority.data = "medium".data then
    s.priority_medium_interval
  else if lowerAscii priority.data = "low".data then s.priority_low_interval
  else fallback

/-- Acceleration step of the interval policy (scheduler.py:323-325): when
the task is due within an hour the interval is rebuilt as
`timedelta(minutes=interval.total_seconds() // 120)`, that is
`base * 60 / 120` minutes under floor division, with no lower bound;
otherwise the base interval stands. Time until due is in minutes. -/
def resolve_interval_base (base : Nat) (time_until_due : Int) : Nat :=
  if time_until_due ≤ 60 then base * 60 / 120 else base

/-- Full interval policy of `_check_upcoming_tasks` for one task: look up
the base cadence by priority, then accelerate near the deadline. -/
def resolveInterval (s : ReminderSettings) (priority : String)
    (fallback : Nat) (time_until_due : Int) : Nat :=
  resolve_interval_base (getattr_priority_interval s priority fallback)
    time_until_due

/-- Model of `Notifier.send_notification(user_id, message, reply_markup)`
(pland/services/reminder/notifier.py:22-44). The gateway behaviour is the
function `gw` giving the outcome of the k-th send attempt within this
call; the `Except` layer models a Python exception escaping to the caller
and the `Nat` counts gateway attempts. Exactly one send is attempted, and
both `TelegramAPIError` and every other exception are caught, logged and
turned into a `False` return. -/
def send_notification (user_id : Int) (message : String)
    (gw : Nat → GatewayOutcome) : (Except Unit Bool) × Nat :=
  (match gw 0 with
   | GatewayOutcome.success => Except.ok true
   | GatewayOutcome.telegramAPIError => Except.ok false
   | GatewayOutcome.otherError => Except.ok false,
   1)

/-- Settings row with the column defaults of
pland/database/models.py:54-68, for concrete evaluations. -/
def exampleSettings : ReminderSettings :=
  { user_id := 1, default_reminder_time := 30,
    morning_reminder_time := "09:00", evening_reminder_time := "20:00",
    priority_high_interval := 30, priority_medium_interval := 60,
    priority_low_interval := 120, quiet_hours_start := "23:00",
    quiet_hours_end := "07:00", reminder_types := "all" }

/-- An uncompleted high priority task due at instant 200. -/
def exampleTask : Task :=
  { id := 1, user_id := 1, title := "write report", due_date := 200,
    completed := false, energy_level := none, optimal_time := none,
    priority := "high" }

/-- The same task already completed. -/
def exampleDoneTask : Task :=
  { exampleTask with completed := true }

/-- A one-shot task reminder job due to fire at instant 100. -/
def exampleTaskJob : Job :=
  { id := "task_1", trigger := Trigger.date 100, nextFireAt := 100 }

/-- A periodic plan status job with a 30 minute cadence. -/
def examplePlanJob : Job :=
  { id := "plan_1", trigger := Trigger.interval 30, nextFireAt := 100 }

/-- A periodic per-priority check job with a 30 minute cadence. -/
def exampleCheckJob : Job :=
  { id := "check_tasks_1_high", trigger := Trigger.interval 30,
    nextFireAt := 100 }

theorem liveJobs_add_job (reg : List Job) (j : Job) :
    liveJobs (add_job reg j) j.id = [j] := by
  induction reg with
  | nil => simp [liveJobs, add_job, cancel]
  | cons a t ih =>
    by_cases h : a.id = j.id <;>
      simp_all [liveJobs, add_job, cancel]

theorem liveJobs_add_job_of_eq (reg : List Job) (j : Job) (key : String)
    (h : j.id = key) : liveJobs (add_job reg j) key = [j] := by
  subst h; exact liveJobs_add_job reg j

/-- C1: a sequence of schedule calls under one key leaves exactly one live
job for that key, its nextFireAt is the last value written, and installing
over an existing key is cancel-then-install. -/
theorem at_most_one_job_per_key (reg init : List Job) (j : Job) (key : String)
    (hkey : j.id = key) (hinit : ∀ i ∈ init, i.id = key) :
    liveJobs ((init ++ [j]).foldl add_job reg) key = [j] ∧
    (liveJobs ((init ++ [j]).foldl add_job reg) key).map Job.nextFireAt
      = [j.nextFireAt] ∧
    (init ++ [j]).foldl add_job reg
      = cancel (init.foldl add_job reg) j.id ++ [j] := by
  have hfold : (init ++ [j]).foldl add_job reg
      = add_job (init.foldl add_job reg) j := by
    rw [List.foldl_append, List.foldl_cons, List.foldl_nil]
  refine ⟨?_, ?_, ?_⟩
  · rw [hfold]; exact liveJobs_add_job_of_eq _ j key hkey
  · rw [hfold, liveJobs_add_job_of_eq _ j key hkey]; rfl
  · rw [hfold]; rfl

theorem at_most_one_job_per_key_witness :
    liveJobs (([(⟨"task_7", Trigger.date 10, 10⟩ : Job)]
        ++ [(⟨"task_7", Trigger.date 50, 50⟩ : Job)]).foldl add_job [])
        "task_7" = [(⟨"task_7", Trigger.date 50, 50⟩ : Job)] ∧
    (liveJobs (([(⟨"task_7", Trigger.date 10, 10⟩ : Job)]
        ++ [(⟨"task_7", Trigger.date 50, 50⟩ : Job)]).foldl add_job [])
        "task_7").map Job.nextFireAt = [(50 : Int)] ∧
    ([(⟨"task_7", Trigger.date 10, 10⟩ : Job)]
        ++ [(⟨"task_7", Trigger.date 50, 50⟩ : Job)]).foldl add_job []
      = cancel ([(⟨"task_7", Trigger.date 10, 10⟩ : Job)].foldl add_job [])
          "task_7" ++ [(⟨"task_7", Trigger.date 50, 50⟩ : Job)] :=
  at_most_one_job_per_key [] [(⟨"task_7", Trigger.date 10, 10⟩ : Job)]
    (⟨"task_7", Trigger.date 50, 50⟩ : Job) "task_7" rfl (by decide)

/-- C2: on well-formed HH:MM strings the quiet-hours check answers exactly
the wraparound-aware window membership formula. -/
theorem quiet_hours_resolution (cs ss es : String) (c s e : Nat)
    (hc : parseHHMM cs = some c) (hs : parseHHMM ss = some s)
    (he : parseHHMM es = some e) :
    is_quiet_hours cs ss es =
      if s ≤ e then decide (s ≤ c ∧ c ≤ e)
      else decide (c ≥ s ∨ c ≤ e) := by
  simp [is_quiet_hours, hc, hs, he, quietWindow]

theorem quiet_hours_resolution_witness :
    parseHHMM "23:30" = some 1410 ∧ parseHHMM "23:00" = some 1380 ∧
    parseHHMM "07:00" = some 420 ∧
    is_quiet_hours "23:30" "23:00" "07:00" =
      (if 1380 ≤ 420 then decide (1380 ≤ 1410 ∧ 1410 ≤ 420)
       else decide (1410 ≥ 1380 ∨ 1410 ≤ 420)) :=
  ⟨by decide, by decide, by decide,
    quiet_hours_resolution "23:30" "23:00" "07:00" 1410 1380 420
      (by decide) (by decide) (by decide)⟩

/-- C8 counterexample: on a malformed quiet-hours start string the check
answers the default boolean `false` instead of surfacing an error, while
the specified behaviour would be an error to the caller. -/
theorem invalid_time_not_propagated :
    parseHHMM "25:99" = none ∧
    is_quiet_hours "12:00" "25:99" "07:00" = false ∧
    is_quiet_hours_spec "12:00" "25:99" "07:00" = Except.error () :=
  ⟨by decide, by decide, rfl⟩

/-- C8 amended: a malformed HH:MM string among the three inputs makes the
check return `false` silently; the parse error is caught and logged inside
`_is_quiet_hours`, never surfaced to the caller. -/
theorem invalid_time_defaults_to_false (cs ss es : String)
    (h : parseHHMM cs = none ∨ parseHHMM ss = none ∨ parseHHMM es = none) :
    is_quiet_hours cs ss es = false ∧
    is_quiet_hours_spec cs ss es = Except.error () := by
  cases h1 : parseHHMM cs <;> cases h2 : parseHHMM ss <;>
    cases h3 : parseHHMM es <;>
      simp [is_quiet_hours, is_quiet_hours_spec, h1, h2, h3] <;>
      rcases h with h | h | h <;> simp_all

theorem invalid_time_defaults_to_false_witness :
    is_quiet_hours "12:00" "banana" "07:00" = false ∧
    is_quiet_hours_spec "12:00" "banana" "07:00" = Except.error () :=
  invalid_time_defaults_to_false "12:00" "banana" "07:00"
    (Or.inr (Or.inl (by decide)))


theorem liveJobs_cancel (reg : List Job) (key : String) :
    liveJobs (cancel reg key) key = [] := by
  induction reg with
  | nil => simp [liveJobs, cancel]
  | cons a t ih =>
    by_cases h : a.id = key <;> simp_all [liveJobs, cancel]

theorem sendStepReminders_completed (steps : List PlanStep)
    (gw : List GatewayOutcome)
    (h : ∀ st ∈ steps, st.status = "completed") :
    sendStepReminders steps gw = 0 := by
  induction steps generalizing gw with
  | nil => simp [sendStepReminders]
  | cons st rest ih =>
    have hst : st.status = "completed" := h st (by simp)
    simp [sendStepReminders, hst]
    exact ih _ (fun x hx => h x (by simp [hx]))

theorem resolve_interval_base_le (base : Nat) :
    base * 60 / 120 ≤ base := by
  have h1 : base * 60 / 120 ≤ base * 60 / 60 :=
    Nat.div_le_div_left (by norm_num) (by norm_num)
  have h2 : base * 60 / 60 = base := Nat.mul_div_cancel base (by norm_num)
  omega

theorem resolve_interval_base_monotone (base : Nat) (t1 t2 : Int)
    (h : t1 ≤ t2) :
    resolve_interval_base base t1 ≤ resolve_interval_base base t2 := by
  unfold resolve_interval_base
  by_cases h1 : t1 ≤ 60
  · by_cases h2 : t2 ≤ 60
    · simp [h1, h2]
    · simp [h1, h2]
      exact resolve_interval_base_le base
  · have h2 : ¬ t2 ≤ 60 := by omega
    simp [h1, h2]

/-- C3 counterexample: a live one-shot task reminder job fires at 23:30
inside the quiet hours 23:00-07:00 with its task still uncompleted;
nothing is delivered, and the registry afterwards holds no job under the
key: the reminder is lost, not delayed. -/
theorem quiet_fire_drops_oneshot_job :
    fireTaskJob [exampleTaskJob] exampleTaskJob 100 (some exampleSettings)
        (some exampleTask) "23:30" GatewayOutcome.success = ([], false) ∧
    liveJobs (fireTaskJob [exampleTaskJob] exampleTaskJob 100
        (some exampleSettings) (some exampleTask) "23:30"
        GatewayOutcome.success).1 "task_1" = [] := by
  constructor <;> decide

/-- C3 amended: for an interval-triggered periodic check job a quiet-hours
fire delivers nothing and the job stays live with its next fire one
interval later; a one-shot date-triggered task reminder job firing inside
quiet hours delivers nothing and is not rescheduled, so that reminder is
lost. -/
theorem quiet_fire_delays_interval_job (reg : List Job) (j : Job) (m : Nat)
    (now : Int) (s : ReminderSettings) (nowClock priority : String)
    (tasks : List Task) (gw : List GatewayOutcome)
    (htr : j.trigger = Trigger.interval m)
    (hq : is_quiet_hours nowClock s.quiet_hours_start s.quiet_hours_end
      = true) :
    (fireCheckJob reg j now (some s) nowClock priority tasks gw).2 = 0 ∧
    liveJobs (fireCheckJob reg j now (some s) nowClock priority tasks gw).1
      j.id = [{ j with nextFireAt := now + m }] := by
  constructor
  · simp [fireCheckJob, check_upcoming_tasks, hq]
  · have h := liveJobs_add_job reg { j with nextFireAt := now + m }
    simpa [fireCheckJob, engineAfterFire, htr] using h

theorem quiet_fire_delays_interval_job_witness :
    (fireCheckJob [exampleCheckJob] exampleCheckJob 100
        (some exampleSettings) "23:30" "high" [exampleTask]
        [GatewayOutcome.success]).2 = 0 ∧
    liveJobs (fireCheckJob [exampleCheckJob] exampleCheckJob 100
        (some exampleSettings) "23:30" "high" [exampleTask]
        [GatewayOutcome.success]).1 "check_tasks_1_high"
      = [{ exampleCheckJob with nextFireAt := 130 }] :=
  quiet_fire_delays_interval_job [exampleCheckJob] exampleCheckJob 30 100
    exampleSettings "23:30" "high" [exampleTask] [GatewayOutcome.success]
    rfl (by decide)

/-- C4 counterexample: a live one-shot task reminder fires at 12:00
outside quiet hours, the gateway raises a transient error, the exception
is caught and logged, but the job is not rescheduled: the registry
afterwards holds nothing under the key, so one transient failure loses
the reminder rather than advancing its next fire. -/
theorem transient_failure_drops_oneshot_job :
    fireTaskJob [exampleTaskJob] exampleTaskJob 100 (some exampleSettings)
        (some exampleTask) "12:00" GatewayOutcome.telegramAPIError
      = ([], false) ∧
    liveJobs (fireTaskJob [exampleTaskJob] exampleTaskJob 100
        (some exampleSettings) (some exampleTask) "12:00"
        GatewayOutcome.telegramAPIError).1 "task_1" = [] := by
  constructor <;> decide

/-- C4 amended: for interval-triggered periodic check jobs a delivery
failure is caught and the job survives at the same cadence: across three
consecutive fires with a failing gateway nothing is delivered, the job
stays live, and its next fire advances by the normal interval each time
with no backoff; one-shot date-triggered task reminder jobs are instead
gone after their single fire whatever the delivery outcome. -/
theorem transient_failures_keep_interval_job (reg reg1 reg2 reg3 : List Job)
    (j : Job) (m : Nat) (d1 d2 d3 : Nat) (n1 n2 n3 : Int)
    (s : ReminderSettings) (ck pr : String) (t : Task) (o : GatewayOutcome)
    (htr : j.trigger = Trigger.interval m)
    (hfail : gatewayOk o = false)
    (hqt : is_quiet_hours ck s.quiet_hours_start s.quiet_hours_end = false)
    (hpr : t.priority = pr) (hcomp : t.completed = false)
    (hdue1 : t.due_date - n1 ≤ 1440) (hdue2 : t.due_date - n2 ≤ 1440)
    (hdue3 : t.due_date - n3 ≤ 1440)
    (h1 : fireCheckJob reg j n1 (some s) ck pr [t] [o] = (reg1, d1))
    (h2 : fireCheckJob reg1 { j with nextFireAt := n1 + m } n2 (some s)
      ck pr [t] [o] = (reg2, d2))
    (h3 : fireCheckJob reg2 { j with nextFireAt := n2 + m } n3 (some s)
      ck pr [t] [o] = (reg3, d3)) :
    d1 = 0 ∧ d2 = 0 ∧ d3 = 0 ∧
    liveJobs reg1 j.id = [{ j with nextFireAt := n1 + m }] ∧
    liveJobs reg2 j.id = [{ j with nextFireAt := n2 + m }] ∧
    liveJobs reg3 j.id = [{ j with nextFireAt := n3 + m }] := by
  have hcount : ∀ n : Int, t.due_date - n ≤ 1440 →
      check_upcoming_tasks (some s) ck n pr [t] [o] = 0 := by
    intro n hn
    cases o <;> simp_all [check_upcoming_tasks, sendDueReminders, gatewayOk]
  have hreg : ∀ (r : List Job) (jx : Job) (n : Int), jx.id = j.id →
      jx.trigger = Trigger.interval m →
      liveJobs (engineAfterFire r jx n) j.id
        = [{ jx with nextFireAt := n + m }] := by
    intro r jx n hid htrx
    rw [engineAfterFire, htrx]
    have h := liveJobs_add_job r { jx with nextFireAt := n + m }
    simpa [hid, htrx] using h
  have e1 := congrArg Prod.fst h1
  have e2 := congrArg Prod.fst h2
  have e3 := congrArg Prod.fst h3
  have f1 := congrArg Prod.snd h1
  have f2 := congrArg Prod.snd h2
  have f3 := congrArg Prod.snd h3
  simp only [fireCheckJob] at e1 e2 e3 f1 f2 f3
  refine ⟨?_, ?_, ?_, ?_, ?_, ?_⟩
  · rw [← f1]; exact hcount n1 hdue1
  · rw [← f2]; exact hcount n2 hdue2
  · rw [← f3]; exact hcount n3 hdue3
  · rw [← e1]; exact hreg reg j n1 rfl htr
  · rw [← e2]; exact hreg reg1 { j with nextFireAt := n1 + m } n2 rfl htr
  · rw [← e3]; exact hreg reg2 { j with nextFireAt := n2 + m } n3 rfl htr

theorem transient_failures_keep_interval_job_witness :
    (0 : Nat) = 0 ∧ (0 : Nat) = 0 ∧ (0 : Nat) = 0 ∧
    liveJobs [{ exampleCheckJob with nextFireAt := 130 }]
      "check_tasks_1_high" = [{ exampleCheckJob with nextFireAt := 130 }] ∧
    liveJobs [{ exampleCheckJob with nextFireAt := 160 }]
      "check_tasks_1_high" = [{ exampleCheckJob with nextFireAt := 160 }] ∧
    liveJobs [{ exampleCheckJob with nextFireAt := 190 }]
      "check_tasks_1_high" = [{ exampleCheckJob with nextFireAt := 190 }] :=
  transient_failures_keep_interval_job [exampleCheckJob]
    [{ exampleCheckJob with nextFireAt := 130 }]
    [{ exampleCheckJob with nextFireAt := 160 }]
    [{ exampleCheckJob with nextFireAt := 190 }]
    exampleCheckJob 30 0 0 0 100 130 160 exampleSettings "12:00" "high"
    exampleTask GatewayOutcome.telegramAPIError rfl rfl (by decide) rfl rfl
    (by decide) (by decide) (by decide) (by decide) (by decide) (by decide)

/-- C5 counterexample: the plan status job fires and the fresh read shows
the plan missing; nothing is sent, but the job is not transitioned out or
removed: it is still live with its next fire one interval later and will
keep firing against the missing plan. -/
theorem missing_target_keeps_plan_job :
    firePlanJob [examplePlanJob] examplePlanJob 100 none []
      = ([{ examplePlanJob with nextFireAt := 130 }], 0) ∧
    liveJobs (firePlanJob [examplePlanJob] examplePlanJob 100 none []).1
      "plan_1" = [{ examplePlanJob with nextFireAt := 130 }] := by
  constructor <;> decide

/-- C5 amended: a trigger fire re-reads the target fresh and sends nothing
when it is completed or missing, but the job is not removed by the
orchestrator: a plan status interval job stays live with its next fire one
interval later, while a one-shot task reminder job disappears only because
its date trigger is exhausted by the fire itself. -/
theorem completed_or_missing_target_fire (reg : List Job) (j : Job)
    (m : Nat) (now : Int) (plan : Option Plan) (gw : List GatewayOutcome)
    (regT : List Job) (jT : Job) (d nowT : Int) (sT : ReminderSettings)
    (tT : Task) (ckT : String) (gwT : GatewayOutcome)
    (htr : j.trigger = Trigger.interval m)
    (hsteps : ∀ p, plan = some p → ∀ st ∈ p.steps,
      st.status = "completed")
    (htrT : jT.trigger = Trigger.date d) (hcompT : tT.completed = true) :
    (firePlanJob reg j now plan gw).2 = 0 ∧
    liveJobs (firePlanJob reg j now plan gw).1 j.id
      = [{ j with nextFireAt := now + m }] ∧
    fireTaskJob regT jT nowT (some sT) (some tT) ckT gwT
      = (cancel regT jT.id, false) ∧
    liveJobs (fireTaskJob regT jT nowT (some sT) (some tT) ckT gwT).1
      jT.id = [] := by
  have hsend : send_task_reminder (some sT) (some tT) ckT gwT = false := by
    by_cases hq : is_quiet_hours ckT sT.quiet_hours_start
        sT.quiet_hours_end <;>
      simp [send_task_reminder, hq, hcompT]
  refine ⟨?_, ?_, ?_, ?_⟩
  · cases hp : plan with
    | none => simp [firePlanJob, check_plan_status]
    | some p =>
      simp only [firePlanJob, check_plan_status]
      exact sendStepReminders_completed p.steps gw (hsteps p hp)
  · have h := liveJobs_add_job reg { j with nextFireAt := now + m }
    simpa [firePlanJob, engineAfterFire, htr] using h
  · simp [fireTaskJob, engineAfterFire, htrT, hsend]
  · simp [fireTaskJob, engineAfterFire, htrT, liveJobs_cancel]

theorem completed_or_missing_target_fire_witness :
    (firePlanJob [examplePlanJob] examplePlanJob 100 none []).2 = 0 ∧
    liveJobs (firePlanJob [examplePlanJob] examplePlanJob 100 none []).1
      "plan_1" = [{ examplePlanJob with nextFireAt := 130 }] ∧
    fireTaskJob [exampleTaskJob] exampleTaskJob 100 (some exampleSettings)
      (some exampleDoneTask) "12:00" GatewayOutcome.success
      = (cancel [exampleTaskJob] "task_1", false) ∧
    liveJobs (fireTaskJob [exampleTaskJob] exampleTaskJob 100
      (some exampleSettings) (some exampleDoneTask) "12:00"
      GatewayOutcome.success).1 "task_1" = [] :=
  completed_or_missing_target_fire [examplePlanJob] examplePlanJob 30 100
    none [] [exampleTaskJob] exampleTaskJob 100 100 exampleSettings
    exampleDoneTask "12:00" GatewayOutcome.success rfl
    (by simp) rfl (by decide)

/-- C6: for a fixed settings row and a fixed priority the resolved
reminder interval is monotone non-decreasing in the time remaining until
due; in particular its value two hours out is at least its value thirty
minutes out. -/
theorem resolve_interval_monotone (s : ReminderSettings) (priority : String)
    (fallback : Nat) (t1 t2 : Int) (h : t1 ≤ t2) :
    resolveInterval s priority fallback t1
      ≤ resolveInterval s priority fallback t2 ∧
    resolveInterval s priority fallback 30
      ≤ resolveInterval s priority fallback 120 :=
  ⟨resolve_interval_base_monotone _ t1 t2 h,
   resolve_interval_base_monotone _ 30 120 (by norm_num)⟩

theorem resolve_interval_monotone_witness :
    resolveInterval exampleSettings "high" 30 30
      ≤ resolveInterval exampleSettings "high" 30 120 ∧
    resolveInterval exampleSettings "high" 30 30
      ≤ resolveInterval exampleSettings "high" 30 120 :=
  resolve_interval_monotone exampleSettings "high" 30 30 120 (by norm_num)

/-- C7 counterexample: with a positive base interval of one minute and a
task due within the hour, the urgent branch computes
`timedelta(minutes=60 // 120) = 0`: the resolved interval is zero, so it
is neither always positive nor floored at one minute. -/
theorem urgent_interval_can_be_zero :
    ({ exampleSettings with priority_high_interval := 1 }
      : ReminderSettings).priority_high_interval = 1 ∧
    resolveInterval { exampleSettings with priority_high_interval := 1 }
      "high" 30 30 = 0 := by
  constructor <;> decide

/-- C7 amended: the urgent branch divides the base by two with floor and
applies no one-minute minimum: outside the last hour the result is the
base itself, inside it is `base * 60 / 120`, and the result is positive
whenever the looked-up base is at least two minutes (a base of one yields
zero inside the last hour, and non-positive bases are not rejected). -/
theorem resolve_interval_positive (s : ReminderSettings) (priority : String)
    (fallback : Nat) (t : Int)
    (hbase : 2 ≤ getattr_priority_interval s priority fallback) :
    0 < resolveInterval s priority fallback t ∧
    resolveInterval s priority fallback t
      = (if t ≤ 60 then
          getattr_priority_interval s priority fallback * 60 / 120
         else getattr_priority_interval s priority fallback) := by
  constructor
  · unfold resolveInterval resolve_interval_base
    by_cases ht : t ≤ 60
    · simp only [ht, if_true]
      exact Nat.div_pos (by omega) (by norm_num)
    · simp only [ht, if_false]
      omega
  · rfl

theorem resolve_interval_positive_witness :
    0 < resolveInterval exampleSettings "high" 30 30 ∧
    resolveInterval exampleSettings "high" 30 30
      = (if (30 : Int) ≤ 60 then
          getattr_priority_interval exampleSettings "high" 30 * 60 / 120
         else getattr_priority_interval exampleSettings "high" 30) :=
  resolve_interval_positive exampleSettings "high" 30 30 (by decide)

/-- C9 counterexample: with default settings the task is due at 200 and
the call arrives at 180, so the lead of 30 minutes puts the reminder
instant 170 in the past; the claim requires clamping to now with an
immediate first fire, but no job at all is installed. -/
theorem past_reminder_time_installs_no_job :
    add_task_reminder [] (some exampleSettings) (some exampleTask) 1
      200 180 = [] ∧
    (200 : Int) - (advance_minutes exampleSettings exampleTask : Nat)
      < 180 := by
  constructor <;> decide

/-- C9 amended: adding a task reminder installs a one-shot job with
nextFireAt equal to the due date minus the advance minutes (the default
lead, scaled by 1.5 for energy level at least 8) via the replacing
add_job, but only when that instant is strictly in the future; when it is
now or past, no job is installed at all. -/
theorem add_task_reminder_future_only (reg : List Job)
    (s : ReminderSettings) (t : Task) (task_id : Nat) (due now : Int) :
    (now < due - (advance_minutes s t : Nat) →
      add_task_reminder reg (some s) (some t) task_id due now
        = add_job reg
            { id := "task_" ++ toString task_id,
              trigger :=
                Trigger.date (due - (advance_minutes s t : Nat)),
              nextFireAt := due - (advance_minutes s t : Nat) } ∧
      liveJobs (add_task_reminder reg (some s) (some t) task_id due now)
          ("task_" ++ toString task_id)
        = [{ id := "task_" ++ toString task_id,
             trigger := Trigger.date (due - (advance_minutes s t : Nat)),
             nextFireAt := due - (advance_minutes s t : Nat) }]) ∧
    (due - (advance_minutes s t : Nat) ≤ now →
      add_task_reminder reg (some s) (some t) task_id due now = reg) := by
  constructor
  · intro h
    constructor
    · simp [add_task_reminder, h]
    · simp only [add_task_reminder, h, if_true]
      exact liveJobs_add_job reg _
  · intro h
    simp [add_task_reminder, not_lt.mpr h]

theorem add_task_reminder_future_only_witness :
    (100 < (200 : Int)
        - (advance_minutes exampleSettings exampleTask : Nat) →
      add_task_reminder [] (some exampleSettings) (some exampleTask) 1
          200 100
        = add_job []
            { id := "task_" ++ toString 1,
              trigger := Trigger.date ((200 : Int)
                - (advance_minutes exampleSettings exampleTask : Nat)),
              nextFireAt := (200 : Int)
                - (advance_minutes exampleSettings exampleTask : Nat) } ∧
      liveJobs (add_task_reminder [] (some exampleSettings)
          (some exampleTask) 1 200 100) ("task_" ++ toString 1)
        = [{ id := "task_" ++ toString 1,
             trigger := Trigger.date ((200 : Int)
               - (advance_minutes exampleSettings exampleTask : Nat)),
             nextFireAt := (200 : Int)
               - (advance_minutes exampleSettings exampleTask : Nat) }]) ∧
    ((200 : Int) - (advance_minutes exampleSettings exampleTask : Nat)
        ≤ 100 →
      add_task_reminder [] (some exampleSettings) (some exampleTask) 1
        200 100 = []) :=
  add_task_reminder_future_only [] exampleSettings exampleTask 1 200 100

/-- C10: the notifier makes exactly one gateway attempt, never lets an
exception escape to its caller, and returns True exactly when the gateway
accepted the send. -/
theorem notifier_total_boolean (user_id : Int) (message : String)
    (gw : Nat → GatewayOutcome) :
    (send_notification user_id message gw).2 = 1 ∧
    (send_notification user_id message gw).1
      = Except.ok (gatewayOk (gw 0)) ∧
    ((send_notification user_id message gw).1 = Except.ok true
      ↔ gw 0 = GatewayOutcome.success) := by
  cases h : gw 0 <;> simp [send_notification, gatewayOk, h]

theorem notifier_total_boolean_witness :
    (send_notification 1 "hello"
      (fun _ => GatewayOutcome.telegramAPIError)).2 = 1 ∧
    (send_notification 1 "hello"
        (fun _ => GatewayOutcome.telegramAPIError)).1
      = Except.ok (gatewayOk
          ((fun _ => GatewayOutcome.telegramAPIError) 0)) ∧
    ((send_notification 1 "hello"
        (fun _ => GatewayOutcome.telegramAPIError)).1 = Except.ok true
      ↔ (fun _ : Nat => GatewayOutcome.telegramAPIError) 0
          = GatewayOutcome.success) :=
  notifier_total_boolean 1 "hello"
    (fun _ => GatewayOutcome.telegramAPIError)

end PlandD
